import Mathlib

set_option autoImplicit false

/-!
Shallow embedding of the Slack bot pipeline in src/app.py.

External collaborators (the OpenAI completion API and the Slack Web API)
are modelled as oracles: a record of functions returning either a payload
or an error, standing for a Python call that returns or raises.  Every
function of the program that the claims mention is translated directly
from the source; the trace of client calls and posted messages made by
one run of the dispatcher is reified as a list of actions.
-/

/-- Errors stand for Python exceptions; only their presence matters. -/
abbrev Err := String

/-- A single quote character, used to build string literals from the source. -/
def apos : String := String.singleton (Char.ofNat 39)

/-- Python substring test (the in operator) on char lists. -/
def listContains : List Char → List Char → Bool
  | _, [] => true
  | [], _ :: _ => false
  | c :: cs, p :: ps => (List.isPrefixOf (p :: ps) (c :: cs)) || listContains cs (p :: ps)

/-- Python substring test: pat in s. -/
def strContains (s pat : String) : Bool := listContains s.data pat.data

/-- Python str.strip on char lists. -/
def listStrip (l : List Char) : List Char :=
  ((l.dropWhile Char.isWhitespace).reverse.dropWhile Char.isWhitespace).reverse

/-- Python str.strip. -/
def strStrip (s : String) : String := String.mk (listStrip s.data)

/-- Fuel-indexed worker for Python str.replace: left-to-right,
non-overlapping replacement of every occurrence. -/
def replaceAux : Nat → List Char → List Char → List Char → List Char
  | 0, s, _, _ => s
  | _ + 1, [], _, _ => []
  | n + 1, c :: cs, pat, rep =>
    if List.isPrefixOf pat (c :: cs) then
      rep ++ replaceAux n (List.drop (pat.length - 1) cs) pat rep
    else
      c :: replaceAux n cs pat rep

/-- Python str.replace (all occurrences, scanning left to right). -/
def strReplace (s pat rep : String) : String :=
  if pat.data.isEmpty then s
  else String.mk (replaceAux s.data.length s.data pat.data rep.data)

/-- The two Slack credentials configured for the app: the bot token and
the elevated user token (SLACK_USER_TOKEN). -/
inductive Token where
  | bot
  | user
deriving DecidableEq

/-- The named arguments of an app.client.search_all call.  The count
field records the page-size argument; the source passes none. -/
structure SearchArgs where
  token : Token
  query : String
  team_id : Option String
  count : Option Nat
deriving DecidableEq

/-- One Slack search match, with the fields the formatter reads.  A none
field stands for a missing dictionary key. -/
structure SlackMsg where
  channel_name : Option String
  user : Option String
  text : Option String
  permalink : Option String
deriving DecidableEq

/-- The payload of a successful search_all call: the matches list under
the messages key, when present. -/
structure SearchResponse where
  matchList : Option (List SlackMsg)

/-- One workflow record from admin.workflows.search. -/
structure Workflow where
  title : Option String
  description : Option String

/-- One message from a conversations.replies response. -/
structure ThreadMsg where
  user : Option String
  text : Option String

/-- The fields of an inbound Slack event that process_event reads; a
none field stands for a missing key in the event payload. -/
structure Event where
  ts : Option String
  subtype : Option String
  text : Option String
  team : Option String
  channel : Option String
  thread_ts : Option String
  user : Option String

/-- The intent labels the dispatcher distinguishes. -/
inductive Intent where
  | SummarizeThread
  | Other
deriving DecidableEq

/-- One observable step of a run: a client call or a posted message. -/
inductive Act where
  | authTest
  | conversationsReplies (channel : Option String) (ts : String)
  | usersInfo (user : String)
  | modelCall (model : String) (prompt : String)
  | searchAll (args : SearchArgs)
  | adminWorkflowsSearch
  | chatPostMessage (channel : Option String) (text : String) (blocksText : String)
      (thread_ts : Option String)
  | sayPost (text : String) (thread_ts : Option String)
deriving DecidableEq

/-- Oracle for the external clients: each field gives the outcome of the
corresponding Python call (ok = returns, error = raises). -/
structure Clients where
  auth_test : Except Err String
  conversations_replies : Option String → String → Except Err (List ThreadMsg)
  users_info : String → Except Err (Option String)
  intent_model : String → Except Err String
  summarize_model : String → Except Err String
  refine_model : String → Except Err String
  search_all : SearchArgs → Except Err SearchResponse
  admin_workflows_search : Except Err (List Workflow)
  cal_model : String → Except Err String
  chat_postMessage : Except Err Unit
  say : String → Option String → Except Err Unit

/-- Mention cleaning at the top of refine_query: when the bot user id
occurs in the text, remove the encoded mention and strip whitespace. -/
def cleanQuery (user_query bot_user_id : String) : String :=
  if strContains user_query bot_user_id then
    strStrip (strReplace user_query ("<@" ++ bot_user_id ++ ">") "")
  else user_query

/-- The user prompt refine_query sends to the model. -/
def refinePromptFor (q : String) : String :=
  "Turn this message into a Slack Search query: " ++ q ++
    ". Only return the query itself. Do not include any commands or filters for Slack to execute. "

/-- refine_query from src/app.py, as a function of the model call
outcome: clean the mention, then keep the model text unless it is empty
or contains the author filter marker, in which case (or on any model
error) fall back to the cleaned text. -/
def refine_query (user_query bot_user_id : String) (model : Except Err String) : String :=
  let q := cleanQuery user_query bot_user_id
  match model with
  | .error _ => q
  | .ok content =>
    let refined_query := strStrip content
    if strContains refined_query "from:@" || refined_query == "" then q else refined_query

/-- The search_all arguments search_slack passes: the elevated user
token, the query, the team id, and no page-size argument. -/
def search_slack_args (refined_query : String) (team_id : Option String) : SearchArgs :=
  { token := Token.user, query := refined_query, team_id := team_id, count := none }

/-- The value search_slack returns for a given search_all outcome: the
matches list on success (empty when the key is missing), the empty list
when the call raises. -/
def search_slack_result (resp : Except Err SearchResponse) : List SlackMsg :=
  match resp with
  | .error _ => []
  | .ok r => r.matchList.getD []

/-- The value get_workflows returns for a given admin.workflows.search
outcome: title and description with their literal defaults, or the empty
list when the call raises. -/
def get_workflows_result (resp : Except Err (List Workflow)) : List (String × String) :=
  match resp with
  | .error _ => []
  | .ok ws => ws.map fun w => (w.title.getD "Unknown Title", w.description.getD "No Description")

/-- One line of the workflow context string. -/
def workflowLine (wf : String × String) : String :=
  "Title: " ++ wf.1 ++ ", Description: " ++ wf.2

/-- Fixed gist used when the match list is empty. -/
def noResultsGist : String :=
  "I couldn" ++ apos ++ "t find any relevant messages in Slack."

/-- Fixed gist used when building the per-match lines raises. -/
def summaryErrGist : String :=
  "I found some relevant messages in Slack, but I couldn" ++ apos ++
    "t generate a summary right now. Here are the sources: "

/-- Fixed references string used when the match list is empty. -/
def noResultsRefs : String := "_No relevant messages found in Slack._"

/-- One gist line for a match; raises (errors) when the channel name is
missing, exactly as the msg[channel][name] lookup would. -/
def gistLine (m : SlackMsg) : Except Err String :=
  match m.channel_name with
  | none => .error "KeyError"
  | some cn =>
    .ok ("- Channel: #" ++ cn ++ ", User: <@" ++ m.user.getD "unknown" ++ ">, Message: " ++
      strStrip (m.text.getD ""))

/-- The gist lines of a list of matches; the first failing line aborts
the whole comprehension. -/
def gistLinesAux : List SlackMsg → Except Err (List String)
  | [] => .ok []
  | m :: ms =>
    match gistLine m, gistLinesAux ms with
    | .error e, _ => .error e
    | .ok _, .error e => .error e
    | .ok l, .ok ls => .ok (l :: ls)

/-- The plain-text gist part of format_combined_results. -/
def gistOf (rs : List SlackMsg) : String :=
  if rs.isEmpty then noResultsGist
  else
    match gistLinesAux (rs.take 5) with
    | .ok lines => String.intercalate "\n" lines
    | .error _ => summaryErrGist

/-- The Python loop building the numbered permalink links: the counter
starts at the given value and each entry is numbered one past it. -/
def searchLinks : List SlackMsg → Nat → String
  | [], _ => ""
  | m :: ms, n =>
    "<" ++ m.permalink.getD "https://fake.link" ++ "|[" ++ toString (n + 1) ++ "]>, " ++
      searchLinks ms (n + 1)

/-- The references part of format_combined_results. -/
def referencesOf (rs : List SlackMsg) : String :=
  if rs.isEmpty then noResultsRefs
  else "Relevant messages: " ++ searchLinks (rs.take 5) 0

/-- format_combined_results from src/app.py: the gist and the numbered
permalink references. -/
def format_combined_results (rs : List SlackMsg) : String × String :=
  (gistOf rs, referencesOf rs)

/-- The intent classification inlined in process_event: the stripped
model text is compared for equality with the label, anything else is the
default label. -/
def classify (content : String) : Intent :=
  if strStrip content = "Summarize Thread" then Intent.SummarizeThread else Intent.Other

/-- The user prompt of the intent classification call. -/
def intentPromptFor (user_name user_message : String) : String :=
  "Determine the intent of this message from " ++ user_name ++ ": " ++ user_message ++
    ". Only respond with one of the following options: Summarize Thread, Other. Do not include any additional context or commentary in the response."

/-- The user prompt of summarize_thread. -/
def summarizePromptFor (message_context : String) : String :=
  "When referring to a user, format the ID as a Slack Bolt user tag, <@userID>" ++
    "Summarize the following messages:\n" ++ message_context ++ "."

/-- The user prompt of the fallback responder call. -/
def calPromptFor (message_context search_context workflow_context user_name user_message :
    String) : String :=
  "Here is the context of the current conversation thread:\n" ++ message_context ++
    "Aditinally, I have gathered these relevant Slack search results to agument the context:\n" ++
    search_context ++
    "Finally, consider these workflows available in the Slack workspace:\n" ++
    workflow_context ++ "\n" ++
    "Respond directly to this message from " ++ user_name ++ ": " ++ user_message ++
    ". Your response should be 3-5 sentences. Your response should be confident, witty, conversational, intelligent, friendly, helpful, clear, and concise. "

/-- One transcript line of the thread context. -/
def threadLine (m : ThreadMsg) : String :=
  "<@" ++ m.user.getD "unknown" ++ ">: " ++ strStrip (m.text.getD "")

/-- The context-building step of process_event: no thread, empty
context; otherwise a conversations.replies call whose failure is not
absorbed, and whose first five messages form the transcript. -/
def contextStep (c : Clients) (e : Event) : List Act × Except Err String :=
  match e.thread_ts with
  | none => ([], .ok "")
  | some tts =>
    match c.conversations_replies e.channel tts with
    | .error err => ([Act.conversationsReplies e.channel tts], .error err)
    | .ok msgs =>
      ([Act.conversationsReplies e.channel tts],
        .ok (String.intercalate "\n" ((msgs.take 5).map threadLine)))

/-- The user-name step of process_event: no user id gives the literal
unknown; otherwise a users.info call whose failure is not absorbed, a
missing real_name rendering as the Python literal None. -/
def userStep (c : Clients) (e : Event) : List Act × Except Err String :=
  match e.user with
  | none => ([], .ok "unknown")
  | some uid =>
    match c.users_info uid with
    | .error err => ([Act.usersInfo uid], .error err)
    | .ok name => ([Act.usersInfo uid], .ok (name.getD "None"))

/-- The generic apology posted by the dispatcher catch-all. -/
def apologyText : String := "I" ++ apos ++ "m sorry, I couldn" ++ apos ++ "t process your request."

/-- The fallback text posted when chat_postMessage raises. -/
def skillText : String :=
  "I don" ++ apos ++ "t have that skill yet. Tell Naseer to get on it!"

/-- The stripped text of the event, as process_event extracts it. -/
def userMsg (e : Event) : String := strStrip (e.text.getD "")

/-- The refined query computed in the Other branch: refine_query applied
to the event text and the outcome of its model call. -/
def refinedQueryOf (c : Clients) (e : Event) (bot_user_id : String) : String :=
  refine_query (userMsg e) bot_user_id
    (c.refine_model (refinePromptFor (cleanQuery (userMsg e) bot_user_id)))

/-- The search_all arguments of the Other branch. -/
def sargsOf (c : Clients) (e : Event) (bot_user_id : String) : SearchArgs :=
  search_slack_args (refinedQueryOf c e bot_user_id) e.team

/-- The search results of the Other branch. -/
def slackResultsOf (c : Clients) (e : Event) (bot_user_id : String) : List SlackMsg :=
  search_slack_result (c.search_all (sargsOf c e bot_user_id))

/-- The fallback responder prompt of the Other branch. -/
def calPromptOf (c : Clients) (e : Event) (bot_user_id user_name message_context : String) :
    String :=
  calPromptFor message_context (gistOf (slackResultsOf c e bot_user_id))
    (String.intercalate "\n" ((get_workflows_result c.admin_workflows_search).map workflowLine))
    user_name (userMsg e)

/-- The mrkdwn text of the block posted by the Other branch. -/
def blocksTextOf (c : Clients) (e : Event) (bot_user_id calRaw : String) : String :=
  strStrip calRaw ++ "\n" ++ referencesOf (slackResultsOf c e bot_user_id)

/-- The calls the Other branch makes before the final post: workflow
listing, refinement model call, search, responder model call. -/
def otherPre (c : Clients) (e : Event) (bot_user_id user_name message_context : String) :
    List Act :=
  [Act.adminWorkflowsSearch,
    Act.modelCall "gpt-3.5-turbo-16k" (refinePromptFor (cleanQuery (userMsg e) bot_user_id)),
    Act.searchAll (sargsOf c e bot_user_id),
    Act.modelCall "gpt-3.5-turbo" (calPromptOf c e bot_user_id user_name message_context)]

/-- The Summarize Thread responder: one summarization model call whose
failure is unabsorbed, then the say post of its stripped text; a failure
of that say call is likewise unabsorbed and reaches the dispatcher
catch-all, the attempted post staying in the trace. -/
def sumStep (c : Clients) (e : Event) (message_context : String) : List Act × Except Err Unit :=
  match c.summarize_model (summarizePromptFor message_context) with
  | .error err => ([Act.modelCall "gpt-4o" (summarizePromptFor message_context)], .error err)
  | .ok sumRaw =>
    match c.say (strStrip sumRaw) e.ts with
    | .ok _ =>
      ([Act.modelCall "gpt-4o" (summarizePromptFor message_context),
        Act.sayPost (strStrip sumRaw) e.ts], .ok ())
    | .error err =>
      ([Act.modelCall "gpt-4o" (summarizePromptFor message_context),
        Act.sayPost (strStrip sumRaw) e.ts], .error err)

/-- The Other (fallback) responder: workflows, refinement, search and
responder model call, then the block post, whose own failure is absorbed
by the inner except that says the skill fallback; a failure of that
fallback say itself is unabsorbed and reaches the dispatcher catch-all,
both attempted posts staying in the trace. -/
def otherStep (c : Clients) (e : Event) (bot_user_id user_name message_context : String) :
    List Act × Except Err Unit :=
  match c.cal_model (calPromptOf c e bot_user_id user_name message_context) with
  | .error err => (otherPre c e bot_user_id user_name message_context, .error err)
  | .ok calRaw =>
    match c.chat_postMessage with
    | .ok _ =>
      (otherPre c e bot_user_id user_name message_context ++
        [Act.chatPostMessage e.channel "bot response"
          (blocksTextOf c e bot_user_id calRaw) e.ts], .ok ())
    | .error _ =>
      match c.say skillText e.ts with
      | .ok _ =>
        (otherPre c e bot_user_id user_name message_context ++
          [Act.chatPostMessage e.channel "bot response"
            (blocksTextOf c e bot_user_id calRaw) e.ts,
           Act.sayPost skillText e.ts], .ok ())
      | .error err =>
        (otherPre c e bot_user_id user_name message_context ++
          [Act.chatPostMessage e.channel "bot response"
            (blocksTextOf c e bot_user_id calRaw) e.ts,
           Act.sayPost skillText e.ts], .error err)

/-- The body of the outer try of process_event: every step in order,
stopping at the first unabsorbed failure; returns the trace of actions
and whether some step raised. -/
def pipeline (c : Clients) (e : Event) : List Act × Except Err Unit :=
  match c.auth_test with
  | .error err => ([Act.authTest], .error err)
  | .ok bot_user_id =>
    match contextStep c e with
    | (a1, .error err) => (Act.authTest :: a1, .error err)
    | (a1, .ok message_context) =>
      match userStep c e with
      | (a2, .error err) => (Act.authTest :: a1 ++ a2, .error err)
      | (a2, .ok user_name) =>
        match c.intent_model (intentPromptFor user_name (userMsg e)) with
        | .error err =>
          (Act.authTest :: a1 ++ a2 ++
            [Act.modelCall "gpt-4o-mini" (intentPromptFor user_name (userMsg e))], .error err)
        | .ok intentRaw =>
          match (match classify intentRaw with
                 | Intent.SummarizeThread => sumStep c e message_context
                 | Intent.Other => otherStep c e bot_user_id user_name message_context) with
          | (a3, r) =>
            (Act.authTest :: a1 ++ a2 ++
              Act.modelCall "gpt-4o-mini" (intentPromptFor user_name (userMsg e)) :: a3, r)

/-- process_event from src/app.py: the subtype guard, then the pipeline
under the outer try whose except says the generic apology to the
thread_ts variable, which holds the ts field of the event.  The result
is the trace of calls made, paired with the exception escaping the
handler, if any: the caught pipeline exception is swallowed, but a
failure of the apology say itself, made inside the except block, has
nothing around it and escapes. -/
def process_event_run (c : Clients) (e : Event) : List Act × Option Err :=
  if e.subtype = some "message_deleted" ∨ e.subtype = some "message_changed" then ([], none)
  else
    match pipeline c e with
    | (acts, .ok _) => (acts, none)
    | (acts, .error _) =>
      match c.say apologyText e.ts with
      | .ok _ => (acts ++ [Act.sayPost apologyText e.ts], none)
      | .error err => (acts ++ [Act.sayPost apologyText e.ts], some err)

/-- The trace of calls one process_event run makes. -/
def process_event (c : Clients) (e : Event) : List Act :=
  (process_event_run c e).1

/-- The posted messages of a trace: text and thread anchor of each say
call and each chat_postMessage call, in order. -/
def postsOf : List Act → List (String × Option String)
  | [] => []
  | Act.sayPost t ts :: rest => (t, ts) :: postsOf rest
  | Act.chatPostMessage _ t _ ts :: rest => (t, ts) :: postsOf rest
  | _ :: rest => postsOf rest

/-- The search_all calls of a trace, in order. -/
def searchCallsOf : List Act → List SearchArgs
  | [] => []
  | Act.searchAll a :: rest => a :: searchCallsOf rest
  | _ :: rest => searchCallsOf rest

/-- The language-model calls of a trace, in order. -/
def modelCallsOf : List Act → List (String × String)
  | [] => []
  | Act.modelCall m p :: rest => (m, p) :: modelCallsOf rest
  | _ :: rest => modelCallsOf rest

/-- Stub oracle on which every external call succeeds. -/
def okClients : Clients where
  auth_test := .ok "UBOT"
  conversations_replies := fun _ _ => .ok []
  users_info := fun _ => .ok (some "Naseer")
  intent_model := fun _ => .ok "Other"
  summarize_model := fun _ => .ok "summary text"
  refine_model := fun _ => .ok "budget docs"
  search_all := fun _ => .ok ⟨some []⟩
  admin_workflows_search := .ok []
  cal_model := fun _ => .ok "a reply"
  chat_postMessage := .ok ()
  say := fun _ _ => .ok ()

/-- Concrete spec-side join used by the reference-format statement. -/
def specJoin : List String → String
  | [] => ""
  | x :: xs => x ++ specJoin xs

/-- Stated from the claim wording: the link entry for one match carrying
its one-based number. -/
def numberedLink (m : SlackMsg) (n : Nat) : String :=
  "<" ++ m.permalink.getD "https://fake.link" ++ "|[" ++ toString n ++ "]>, "

/-- Stated from the claim wording: for a nonempty match list, the
references string holds one numbered link per match among at most the
first five, numbered consecutively from one. -/
def referencesSpec (rs : List SlackMsg) : String :=
  if rs.isEmpty then noResultsRefs
  else "Relevant messages: " ++
    specJoin (((rs.take 5).enum).map fun p => numberedLink p.2 (p.1 + 1))

/-- Clients whose auth call raises; every other call succeeds. -/
def cAuthFail : Clients := { okClients with auth_test := .error "down" }

/-- Clients routed to the summarizer whose every say call raises. -/
def cSumSayFail : Clients :=
  { okClients with
    intent_model := fun _ => .ok "Summarize Thread"
    summarize_model := fun _ => .ok "SUMX"
    say := fun _ _ => .error "sayfail" }

/-- Clients whose thread-replies fetch raises. -/
def cRepliesFail : Clients :=
  { okClients with conversations_replies := fun _ _ => .error "timeout" }

/-- Clients routed to the thread summarizer. -/
def cSummarize : Clients :=
  { okClients with
    intent_model := fun _ => .ok "Summarize Thread"
    summarize_model := fun _ => .ok "SUM" }

/-- A threaded event whose own timestamp differs from its thread anchor. -/
def eThreaded1 : Event :=
  { ts := some "200.0", subtype := none, text := some "hi", team := some "T1",
    channel := some "C1", thread_ts := some "100.0", user := none }

/-- A second threaded event with distinct field values. -/
def eThreaded2 : Event :=
  { ts := some "2.2", subtype := none, text := some "please summarize", team := some "T2",
    channel := some "C2", thread_ts := some "1.1", user := some "U7" }

/-- A third threaded event with distinct field values. -/
def eThreaded3 : Event :=
  { ts := some "60.0", subtype := none, text := some "hello", team := some "T3",
    channel := some "C3", thread_ts := some "50.0", user := some "U3" }

/-- A fourth threaded event, used for the degraded-context witness. -/
def eThreaded4 : Event :=
  { ts := some "61.0", subtype := none, text := some "hola", team := none,
    channel := some "CH", thread_ts := some "51.0", user := none }

/-- An unthreaded event without subtype. -/
def ePlain1 : Event :=
  { ts := some "9.0", subtype := none, text := some "hello", team := none,
    channel := none, thread_ts := none, user := none }

/-- A second unthreaded event with distinct field values. -/
def ePlain2 : Event :=
  { ts := some "3.3", subtype := none, text := some "hey", team := none,
    channel := none, thread_ts := none, user := none }

/-- An unthreaded event carrying a team id, used for the search claims. -/
def eSearch1 : Event :=
  { ts := some "8.0", subtype := none, text := some "find the report", team := some "T8",
    channel := some "C8", thread_ts := none, user := none }

/-- A second unthreaded event with a team id. -/
def eSearch2 : Event :=
  { ts := some "8.1", subtype := none, text := some "where is the doc", team := some "T9",
    channel := some "C9", thread_ts := none, user := none }

/-- The search arguments observed in the eSearch1 run. -/
def sargs8 : SearchArgs :=
  { token := Token.user, query := "budget docs", team_id := some "T8", count := none }

/-- The search arguments observed in the eSearch2 run. -/
def sargs9 : SearchArgs :=
  { token := Token.user, query := "budget docs", team_id := some "T9", count := none }

/-- An event carrying the deleted-message subtype. -/
def eDeleted : Event :=
  { ts := some "7.0", subtype := some "message_deleted", text := some "x", team := none,
    channel := none, thread_ts := none, user := none }

@[simp] theorem postsOf_nil : postsOf [] = [] := rfl

@[simp] theorem postsOf_authTest (l : List Act) : postsOf (Act.authTest :: l) = postsOf l := rfl

@[simp] theorem postsOf_replies (ch : Option String) (ts : String) (l : List Act) :
    postsOf (Act.conversationsReplies ch ts :: l) = postsOf l := rfl

@[simp] theorem postsOf_usersInfo (u : String) (l : List Act) :
    postsOf (Act.usersInfo u :: l) = postsOf l := rfl

@[simp] theorem postsOf_modelCall (m p : String) (l : List Act) :
    postsOf (Act.modelCall m p :: l) = postsOf l := rfl

@[simp] theorem postsOf_searchAll (a : SearchArgs) (l : List Act) :
    postsOf (Act.searchAll a :: l) = postsOf l := rfl

@[simp] theorem postsOf_workflows (l : List Act) :
    postsOf (Act.adminWorkflowsSearch :: l) = postsOf l := rfl

@[simp] theorem postsOf_say (t : String) (ts : Option String) (l : List Act) :
    postsOf (Act.sayPost t ts :: l) = (t, ts) :: postsOf l := rfl

@[simp] theorem postsOf_chatPost (ch : Option String) (t bt : String) (ts : Option String)
    (l : List Act) : postsOf (Act.chatPostMessage ch t bt ts :: l) = (t, ts) :: postsOf l := rfl

@[simp] theorem searchCallsOf_nil : searchCallsOf [] = [] := rfl

@[simp] theorem searchCallsOf_authTest (l : List Act) :
    searchCallsOf (Act.authTest :: l) = searchCallsOf l := rfl

@[simp] theorem searchCallsOf_replies (ch : Option String) (ts : String) (l : List Act) :
    searchCallsOf (Act.conversationsReplies ch ts :: l) = searchCallsOf l := rfl

@[simp] theorem searchCallsOf_usersInfo (u : String) (l : List Act) :
    searchCallsOf (Act.usersInfo u :: l) = searchCallsOf l := rfl

@[simp] theorem searchCallsOf_modelCall (m p : String) (l : List Act) :
    searchCallsOf (Act.modelCall m p :: l) = searchCallsOf l := rfl

@[simp] theorem searchCallsOf_searchAll (a : SearchArgs) (l : List Act) :
    searchCallsOf (Act.searchAll a :: l) = a :: searchCallsOf l := rfl

@[simp] theorem searchCallsOf_workflows (l : List Act) :
    searchCallsOf (Act.adminWorkflowsSearch :: l) = searchCallsOf l := rfl

@[simp] theorem searchCallsOf_say (t : String) (ts : Option String) (l : List Act) :
    searchCallsOf (Act.sayPost t ts :: l) = searchCallsOf l := rfl

@[simp] theorem searchCallsOf_chatPost (ch : Option String) (t bt : String)
    (ts : Option String) (l : List Act) :
    searchCallsOf (Act.chatPostMessage ch t bt ts :: l) = searchCallsOf l := rfl

theorem postsOf_append (a b : List Act) : postsOf (a ++ b) = postsOf a ++ postsOf b := by
  induction a with
  | nil => rfl
  | cons x xs ih => cases x <;> simp [postsOf, ih]

theorem searchCallsOf_append (a b : List Act) :
    searchCallsOf (a ++ b) = searchCallsOf a ++ searchCallsOf b := by
  induction a with
  | nil => rfl
  | cons x xs ih => cases x <;> simp [searchCallsOf, ih]

theorem modelCallsOf_append (a b : List Act) :
    modelCallsOf (a ++ b) = modelCallsOf a ++ modelCallsOf b := by
  induction a with
  | nil => rfl
  | cons x xs ih => cases x <;> simp [modelCallsOf, ih]

theorem contextStep_posts (c : Clients) (e : Event) : postsOf (contextStep c e).1 = [] := by
  unfold contextStep
  split
  · rfl
  · split <;> rfl

theorem contextStep_searchCalls (c : Clients) (e : Event) :
    searchCallsOf (contextStep c e).1 = [] := by
  unfold contextStep
  split
  · rfl
  · split <;> rfl

theorem userStep_posts (c : Clients) (e : Event) : postsOf (userStep c e).1 = [] := by
  unfold userStep
  split
  · rfl
  · split <;> rfl

theorem userStep_searchCalls (c : Clients) (e : Event) :
    searchCallsOf (userStep c e).1 = [] := by
  unfold userStep
  split
  · rfl
  · split <;> rfl

theorem sumStep_anchor (c : Clients) (e : Event) (ctx : String) (p : String × Option String)
    (hp : p ∈ postsOf (sumStep c e ctx).1) : p.2 = e.ts := by
  unfold sumStep at hp
  split at hp
  · simp [postsOf] at hp
  · split at hp <;> simp [postsOf] at hp <;> rw [hp]

theorem otherPre_posts (c : Clients) (e : Event) (b u ctx : String) :
    postsOf (otherPre c e b u ctx) = [] := rfl

theorem otherStep_anchor (c : Clients) (e : Event) (b u ctx : String)
    (p : String × Option String) (hp : p ∈ postsOf (otherStep c e b u ctx).1) : p.2 = e.ts := by
  unfold otherStep at hp
  split at hp
  · simp [otherPre, postsOf] at hp
  · split at hp
    · simp [postsOf_append, otherPre, postsOf] at hp
      rw [hp]
    · split at hp <;> simp [postsOf_append, otherPre, postsOf] at hp <;>
        rcases hp with hp | hp <;> rw [hp]

theorem sumStep_searchCalls (c : Clients) (e : Event) (ctx : String) :
    searchCallsOf (sumStep c e ctx).1 = [] := by
  unfold sumStep
  split
  · rfl
  · split <;> rfl

theorem otherStep_searchCalls (c : Clients) (e : Event) (b u ctx : String) (a : SearchArgs)
    (ha : a ∈ searchCallsOf (otherStep c e b u ctx).1) : a = sargsOf c e b := by
  unfold otherStep at ha
  split at ha
  · simp [otherPre, searchCallsOf] at ha
    exact ha
  · split at ha
    · simp [searchCallsOf_append, otherPre, searchCallsOf] at ha
      exact ha
    · split at ha <;> simp [searchCallsOf_append, otherPre, searchCallsOf] at ha <;> exact ha

theorem pipeline_anchor (c : Clients) (e : Event) (p : String × Option String)
    (hp : p ∈ postsOf (pipeline c e).1) : p.2 = e.ts := by
  unfold pipeline at hp
  split at hp
  · simp [postsOf] at hp
  · rename_i bot hb
    split at hp
    · rename_i a1 err1 heq1
      have h1 := contextStep_posts c e
      rw [heq1] at h1
      simp [postsOf, h1] at hp
    · rename_i a1 msgctx heq1
      split at hp
      · rename_i a2 err2 heq2
        have h1 := contextStep_posts c e
        rw [heq1] at h1
        have h2 := userStep_posts c e
        rw [heq2] at h2
        simp [postsOf, postsOf_append, h1, h2] at hp
      · rename_i a2 uname heq2
        split at hp
        · have h1 := contextStep_posts c e
          rw [heq1] at h1
          have h2 := userStep_posts c e
          rw [heq2] at h2
          simp [postsOf, postsOf_append, h1, h2] at hp
        · rename_i intentRaw heq3
          split at hp
          rename_i a3 r heq4
          have h1 := contextStep_posts c e
          rw [heq1] at h1
          have h2 := userStep_posts c e
          rw [heq2] at h2
          simp at h1 h2
          simp [postsOf_append, h1, h2] at hp
          rcases h4 : classify intentRaw with _ | _ <;> rw [h4] at heq4
          · have heq5 : sumStep c e msgctx = (a3, r) := heq4
            have h5 := sumStep_anchor c e msgctx p
            rw [heq5] at h5
            exact h5 hp
          · have heq5 : otherStep c e bot uname msgctx = (a3, r) := heq4
            have h5 := otherStep_anchor c e bot uname msgctx p
            rw [heq5] at h5
            exact h5 hp

theorem pipeline_search (c : Clients) (e : Event) (a : SearchArgs)
    (ha : a ∈ searchCallsOf (pipeline c e).1) :
    a.token = Token.user ∧ a.team_id = e.team ∧ a.count = none := by
  unfold pipeline at ha
  split at ha
  · simp [searchCallsOf] at ha
  · rename_i bot hb
    split at ha
    · rename_i a1 err1 heq1
      have h1 := contextStep_searchCalls c e
      rw [heq1] at h1
      simp [searchCallsOf, h1] at ha
    · rename_i a1 msgctx heq1
      split at ha
      · rename_i a2 err2 heq2
        have h1 := contextStep_searchCalls c e
        rw [heq1] at h1
        have h2 := userStep_searchCalls c e
        rw [heq2] at h2
        simp [searchCallsOf, searchCallsOf_append, h1, h2] at ha
      · rename_i a2 uname heq2
        split at ha
        · have h1 := contextStep_searchCalls c e
          rw [heq1] at h1
          have h2 := userStep_searchCalls c e
          rw [heq2] at h2
          simp [searchCallsOf, searchCallsOf_append, h1, h2] at ha
        · rename_i intentRaw heq3
          split at ha
          rename_i a3 r heq4
          have h1 := contextStep_searchCalls c e
          rw [heq1] at h1
          have h2 := userStep_searchCalls c e
          rw [heq2] at h2
          simp at h1 h2
          simp [searchCallsOf_append, h1, h2] at ha
          rcases h4 : classify intentRaw with _ | _ <;> rw [h4] at heq4
          · have heq5 : sumStep c e msgctx = (a3, r) := heq4
            have h5 := sumStep_searchCalls c e msgctx
            rw [heq5] at h5
            simp at h5
            simp [h5] at ha
          · have heq5 : otherStep c e bot uname msgctx = (a3, r) := heq4
            have h5 := otherStep_searchCalls c e bot uname msgctx a
            rw [heq5] at h5
            rw [h5 ha]
            exact ⟨rfl, rfl, rfl⟩

theorem specJoin_append (a b : List String) :
    specJoin (a ++ b) = specJoin a ++ specJoin b := by
  induction a with
  | nil => simp [specJoin]
  | cons x xs ih => simp [specJoin, ih, String.append_assoc]

theorem searchLinks_enumFrom (l : List SlackMsg) (n : Nat) :
    searchLinks l n = specJoin ((List.enumFrom n l).map fun p => numberedLink p.2 (p.1 + 1)) := by
  induction l generalizing n with
  | nil => rfl
  | cons m ms ih => simp [searchLinks, List.enumFrom, specJoin, numberedLink, ih]

theorem gistOf_take (rs : List SlackMsg) : gistOf (rs.take 5) = gistOf rs := by
  cases rs with
  | nil => rfl
  | cons m ms =>
    unfold gistOf
    simp [List.take_take]

theorem referencesOf_take (rs : List SlackMsg) : referencesOf (rs.take 5) = referencesOf rs := by
  cases rs with
  | nil => rfl
  | cons m ms =>
    unfold referencesOf
    simp [List.take_take]

/-- Claim C4 (amended): whenever the model output is empty after
stripping or contains the author filter marker, refine_query returns the
cleaned but unrefined input; and provided that cleaned input itself is
nonempty and free of the marker, refine_query never returns an empty
string or one containing the marker.  (The unamended claim fails when the
raw input itself is empty or carries the marker.) -/
theorem C4_refine_validation (q b : String) (m : Except Err String)
    (h1 : cleanQuery q b ≠ "") (h2 : strContains (cleanQuery q b) "from:@" = false) :
    refine_query q b m ≠ "" ∧ strContains (refine_query q b m) "from:@" = false ∧
    (∀ raw, m = Except.ok raw →
      strStrip raw = "" ∨ strContains (strStrip raw) "from:@" = true →
      refine_query q b m = cleanQuery q b) := by
  unfold refine_query
  cases m with
  | error err =>
    refine ⟨h1, h2, ?_⟩
    intro raw hr
    simp at hr
  | ok content =>
    by_cases hc : (strContains (strStrip content) "from:@" || strStrip content == "") = true
    · simp only [hc, if_true]
      refine ⟨h1, h2, ?_⟩
      intro raw hr hbad
      trivial
    · simp only [hc, if_false]
      simp only [Bool.or_eq_true, beq_iff_eq, not_or] at hc
      obtain ⟨hc1, hc2⟩ := hc
      refine ⟨hc2, by simp [Bool.not_eq_true] at hc1; exact hc1, ?_⟩
      intro raw hr hbad
      cases hr
      rcases hbad with h | h
      · exact absurd h hc2
      · exact absurd h hc1

/-- Claim C4 witness at a concrete input: the cleaned input is valid and
the model output "from:@x q3" is rejected in favour of the input. -/
theorem C4_refine_validation_witness :
    refine_query "budget report" "U1" (Except.ok "from:@x q3") = "budget report" ∧
    refine_query "budget report" "U1" (Except.ok "from:@x q3") ≠ "" := by
  have h := C4_refine_validation "budget report" "U1" (Except.ok "from:@x q3")
    (by decide) (by decide)
  exact ⟨h.2.2 "from:@x q3" rfl (Or.inr (by decide)), h.1⟩

/-- Claim C4 counterexample to the unamended statement: when the raw
input itself carries the author filter marker (or is empty), the value
refine_query returns carries the marker (or is empty). -/
theorem C4_counterexample :
    refine_query "from:@x foo" "U1" (Except.ok "") = "from:@x foo" ∧
    strContains "from:@x foo" "from:@" = true ∧
    refine_query "" "U1" (Except.ok "") = "" := by
  refine ⟨by decide, by decide, by decide⟩

/-- Claim C5 (amended): refine_query removes the mention token from the
input in one left-to-right replacement pass before refining; the result
is guaranteed token-free only when that single pass leaves no occurrence
and the model output itself carries no token, because a kept model
output is returned without any mention validation. -/
theorem C5_mention_removal (raw b : String) (m : Except Err String)
    (hb : strContains raw b = true)
    (hclean :
      strContains (strStrip (strReplace raw ("<@" ++ b ++ ">") "")) ("<@" ++ b ++ ">") = false)
    (hm : ∀ out, m = Except.ok out → strContains (strStrip out) ("<@" ++ b ++ ">") = false) :
    strContains (refine_query raw b m) ("<@" ++ b ++ ">") = false := by
  have hcq : cleanQuery raw b = strStrip (strReplace raw ("<@" ++ b ++ ">") "") := by
    unfold cleanQuery
    rw [hb]
    rfl
  unfold refine_query
  cases m with
  | error err =>
    rw [hcq]
    exact hclean
  | ok content =>
    by_cases hc : (strContains (strStrip content) "from:@" || strStrip content == "") = true
    · simp only [hc, if_true]
      rw [hcq]
      exact hclean
    · simp only [hc, if_false]
      exact hm content rfl

/-- Claim C5 witness at a concrete input: with a token-free model output
the returned query carries no mention token. -/
theorem C5_mention_removal_witness :
    strContains (refine_query "<@U1> find docs" "U1" (Except.ok "find docs"))
      ("<@" ++ "U1" ++ ">") = false :=
  C5_mention_removal "<@U1> find docs" "U1" (Except.ok "find docs") (by decide) (by decide)
    (fun out h => by cases h; decide)

/-- Claim C5 counterexample to the unamended statement: a model output
that echoes the mention token is returned with the token, and a raw text
on which single-pass removal re-exposes an occurrence falls back to a
cleaned text that still carries the token. -/
theorem C5_counterexample :
    strContains (refine_query "<@U1> hi" "U1" (Except.ok "<@U1> hi")) "<@U1>" = true ∧
    strContains (refine_query "<@<@U1>U1> hi" "U1" (Except.ok "")) "<@U1>" = true := by
  refine ⟨by decide, by decide⟩

/-- Claim C6 (amended): the classifier first strips surrounding
whitespace from the model output and then matches exactly: a stripped
output equal to the Summarize Thread label selects the summarizer and
every other output, for example Maybe?, maps to the default Other label;
the result is always exactly one of the two labels. -/
theorem C6_classifier_labels (out : String) :
    (classify out = Intent.SummarizeThread ↔ strStrip out = "Summarize Thread") ∧
    (classify out = Intent.SummarizeThread ∨ classify out = Intent.Other) ∧
    classify "Maybe?" = Intent.Other := by
  refine ⟨?_, ?_, by decide⟩
  · unfold classify
    by_cases h : strStrip out = "Summarize Thread" <;> simp [h]
  · unfold classify
    by_cases h : strStrip out = "Summarize Thread" <;> simp [h]

/-- Claim C6 counterexample to the unamended statement: an output that
does not exactly match the label still selects the summarizer, because
the code strips whitespace before comparing. -/
theorem C6_counterexample :
    classify " Summarize Thread " = Intent.SummarizeThread ∧
    " Summarize Thread " ≠ "Summarize Thread" := by
  refine ⟨by decide, by decide⟩

/-- Claim C7 (confirmed): an event whose subtype marks a deletion or an
edit short-circuits process_event with an empty trace: no model call, no
chat-platform call and no posted reply. -/
theorem C7_subtype_guard (c : Clients) (e : Event)
    (h : e.subtype = some "message_deleted" ∨ e.subtype = some "message_changed") :
    process_event c e = [] := by
  unfold process_event process_event_run
  rw [if_pos h]

/-- Claim C7 witness at a concrete input: a deleted-message event yields
an empty trace. -/
theorem C7_subtype_guard_witness : process_event okClients eDeleted = [] :=
  C7_subtype_guard okClients eDeleted (Or.inl rfl)

/-- Claim C9 (confirmed): format_combined_results depends only on the
first five matches, its references string is the claim-side rendering
with one link per used match numbered consecutively from one, and at
most five links are rendered. -/
theorem C9_top_five_bound (rs : List SlackMsg) :
    format_combined_results rs = format_combined_results (rs.take 5) ∧
    referencesOf rs = referencesSpec rs ∧
    (((rs.take 5).enum).map fun p => numberedLink p.2 (p.1 + 1)).length ≤ 5 := by
  refine ⟨?_, ?_, ?_⟩
  · unfold format_combined_results
    rw [gistOf_take, referencesOf_take]
  · cases rs with
    | nil => rfl
    | cons m ms =>
      unfold referencesOf referencesSpec
      simp only [List.isEmpty_cons, if_false, Bool.false_eq_true]
      rw [searchLinks_enumFrom]
      rfl
  · rw [List.length_map, List.enum_length, List.length_take]
    exact Nat.min_le_left _ _

/-- Claim C10 (confirmed): on an empty match list, and hence whenever
the search step failed and degraded to an empty list, the formatter
returns the fixed nonempty no-results gist and reference strings. -/
theorem C10_empty_fallback (err : Err) :
    format_combined_results [] = (noResultsGist, noResultsRefs) ∧
    format_combined_results (search_slack_result (Except.error err)) =
      (noResultsGist, noResultsRefs) ∧
    noResultsGist ≠ "" ∧ noResultsRefs ≠ "" := by
  refine ⟨rfl, rfl, by decide, by decide⟩

/-- Claim C1 (amended): whenever the pipeline body raises an exception
not absorbed at an inner boundary, the dispatcher catches it and makes
exactly one generic apology post, appended after the calls of the failed
run and addressed to the event's own message timestamp (the dispatcher's
reply anchor); no exception escapes the handler exactly when that
apology post itself succeeds.  When the unabsorbed failure was itself a
failed reply post, that attempted post precedes the apology in the
trace. -/
theorem C1_catch_all_apology (c : Clients) (e : Event)
    (hsub : ¬(e.subtype = some "message_deleted" ∨ e.subtype = some "message_changed"))
    (acts : List Act) (err : Err) (h : pipeline c e = (acts, Except.error err)) :
    process_event c e = acts ++ [Act.sayPost apologyText e.ts] ∧
    ((process_event_run c e).2 = none ↔ c.say apologyText e.ts = Except.ok ()) := by
  unfold process_event process_event_run
  rw [if_neg hsub, h]
  cases hs : c.say apologyText e.ts with
  | ok u =>
    cases u
    simp
  | error err2 => simp

/-- Claim C1 witness at a concrete input: with a failing auth call and a
succeeding say, the run makes exactly the auth call plus one apology
post, anchored at the event timestamp, and nothing escapes. -/
theorem C1_catch_all_apology_witness :
    (process_event cAuthFail ePlain1 =
      [Act.authTest] ++ [Act.sayPost apologyText (some "9.0")]) ∧
    ((process_event_run cAuthFail ePlain1).2 = none ↔
      cAuthFail.say apologyText (some "9.0") = Except.ok ()) :=
  C1_catch_all_apology cAuthFail ePlain1 (by decide) [Act.authTest] "down" rfl

/-- Claim C1 counterexample to the unamended statement: on a threaded
event whose summarizer reply post raises, the trace holds two post
attempts (the failed reply and the apology) rather than exactly one
apology; the apology say itself raising makes an exception escape the
handler; and all posts are addressed to the event timestamp 200.0, not
to the thread anchor 100.0. -/
theorem C1_counterexample :
    postsOf (process_event cSumSayFail eThreaded1) =
      [("SUMX", some "200.0"), (apologyText, some "200.0")] ∧
    (process_event_run cSumSayFail eThreaded1).2 = some "sayfail" ∧
    eThreaded1.thread_ts = some "100.0" ∧
    (some "200.0" : Option String) ≠ some "100.0" := by
  refine ⟨rfl, rfl, rfl, by decide⟩

/-- Claim C2 (amended): every message the dispatcher posts, in every
run, is addressed to the event's own message timestamp, whether or not
an explicit thread anchor exists; the explicit anchor is used only to
fetch the thread context. -/
theorem C2_reply_anchor (c : Clients) (e : Event) (p : String × Option String)
    (hp : p ∈ postsOf (process_event c e)) : p.2 = e.ts := by
  unfold process_event process_event_run at hp
  by_cases hsub : e.subtype = some "message_deleted" ∨ e.subtype = some "message_changed"
  · rw [if_pos hsub] at hp
    simp at hp
  · rw [if_neg hsub] at hp
    rcases hpl : pipeline c e with ⟨acts, r⟩
    rw [hpl] at hp
    cases r with
    | ok u =>
      have h := pipeline_anchor c e p
      rw [hpl] at h
      exact h hp
    | error err =>
      have h := pipeline_anchor c e p
      rw [hpl] at h
      cases hs : c.say apologyText e.ts <;> rw [hs] at hp <;>
          simp [postsOf_append] at hp <;> rcases hp with hp | hp
      · exact h hp
      · rw [hp]
      · exact h hp
      · rw [hp]

/-- Claim C2 witness at a concrete input: the fallback responder's post
is anchored at the event timestamp. -/
theorem C2_reply_anchor_witness :
    (("bot response", (some "3.3" : Option String)) ∈ postsOf (process_event okClients ePlain2))
      ∧ (("bot response", (some "3.3" : Option String)).2 = ePlain2.ts) :=
  ⟨by decide, C2_reply_anchor okClients ePlain2 ("bot response", some "3.3") (by decide)⟩

/-- Claim C2 counterexample to the unamended statement: a threaded event
with explicit anchor 1.1 and own timestamp 2.2 gets its summarizer reply
posted to 2.2, not to the explicit thread anchor. -/
theorem C2_counterexample :
    postsOf (process_event cSummarize eThreaded2) = [("SUM", some "2.2")] ∧
    eThreaded2.thread_ts = some "1.1" ∧
    (some "2.2" : Option String) ≠ some "1.1" := by
  refine ⟨rfl, rfl, by decide⟩

/-- Claim C3 (amended): when fetching thread replies raises, nothing
absorbs the failure: the pipeline stops before any model call, the
dispatcher catch-all fires, and a generic apology is posted, so the
failure is surfaced to the user as an error reply instead of degrading
to an empty context. -/
theorem C3_replies_failure_aborts (c : Clients) (e : Event) (tts b : String) (err : Err)
    (hsub : ¬(e.subtype = some "message_deleted" ∨ e.subtype = some "message_changed"))
    (h1 : e.thread_ts = some tts) (h2 : c.auth_test = Except.ok b)
    (h3 : c.conversations_replies e.channel tts = Except.error err) :
    process_event c e =
      [Act.authTest, Act.conversationsReplies e.channel tts,
        Act.sayPost apologyText e.ts] := by
  have hctx : contextStep c e = ([Act.conversationsReplies e.channel tts], Except.error err) := by
    simp only [contextStep, h1, h3]
  have hpl : pipeline c e =
      (Act.authTest :: [Act.conversationsReplies e.channel tts], Except.error err) := by
    simp only [pipeline, h2, hctx]
  unfold process_event process_event_run
  rw [if_neg hsub, hpl]
  cases hs : c.say apologyText e.ts <;> rfl

/-- Claim C3 witness at a concrete input: a threaded event whose replies
fetch raises produces exactly the auth call, the failed fetch and the
apology post. -/
theorem C3_replies_failure_aborts_witness :
    process_event cRepliesFail eThreaded4 =
      [Act.authTest, Act.conversationsReplies (some "CH") "51.0",
        Act.sayPost apologyText (some "61.0")] :=
  C3_replies_failure_aborts cRepliesFail eThreaded4 "51.0" "UBOT" "timeout"
    (by decide) rfl rfl rfl

/-- Claim C3 counterexample to the unamended statement: with a failing
replies fetch no model call is ever made, so the rest of the pipeline
does not run, and the failure surfaces as an apology reply. -/
theorem C3_counterexample :
    modelCallsOf (process_event cRepliesFail eThreaded3) = [] ∧
    postsOf (process_event cRepliesFail eThreaded3) = [(apologyText, some "60.0")] := by
  refine ⟨rfl, rfl⟩

/-- Claim C8 (amended): every full-text search call of every run uses
the elevated user credential, is scoped to the event's team id, and
passes no page-size argument at all, so the platform default page size
applies. -/
theorem C8_search_call_shape (c : Clients) (e : Event) (a : SearchArgs)
    (ha : a ∈ searchCallsOf (process_event c e)) :
    a.token = Token.user ∧ a.team_id = e.team ∧ a.count = none := by
  unfold process_event process_event_run at ha
  by_cases hsub : e.subtype = some "message_deleted" ∨ e.subtype = some "message_changed"
  · rw [if_pos hsub] at ha
    simp at ha
  · rw [if_neg hsub] at ha
    rcases hpl : pipeline c e with ⟨acts, r⟩
    rw [hpl] at ha
    cases r with
    | ok u =>
      have h := pipeline_search c e a
      rw [hpl] at h
      exact h ha
    | error err =>
      have h := pipeline_search c e a
      rw [hpl] at h
      apply h
      cases hs : c.say apologyText e.ts <;> rw [hs] at ha <;>
        simpa [searchCallsOf_append] using ha

/-- Claim C8 witness at a concrete input: the one search call of the
eSearch1 run uses the user token, the event's team and no page size. -/
theorem C8_search_call_shape_witness :
    (sargs8 ∈ searchCallsOf (process_event okClients eSearch1)) ∧
    (sargs8.token = Token.user ∧ sargs8.team_id = eSearch1.team ∧ sargs8.count = none) :=
  ⟨by decide, C8_search_call_shape okClients eSearch1 sargs8 (by decide)⟩

/-- Claim C8 counterexample to the unamended statement: the search call
the code issues carries no page-size argument, so it does not request a
fixed page size of at most ten results. -/
theorem C8_counterexample :
    searchCallsOf (process_event okClients eSearch2) = [sargs9] ∧
    sargs9.count = none ∧ sargs9.count.isNone = true := by
  refine ⟨rfl, rfl, rfl⟩
